import Mathlib

/-!
# Verification of the node-description parsing core

Shallow embedding of `rfb_utils/node_desc_base/node_desc_param.py` and
`rfb_utils/node_desc_base/node_desc.py`: the value-coercion utilities
(`to_bool`, `safe_value_eval`, `validate_type`, the C-style float cleanup),
the parameter construction helpers (`_set_size`, `_set_default`, `finalize`,
JSON `_postprocess_default`) and the `NodeDesc` post-parse passes
(`notes` removal, trigger collection, trigger marking, `clear_parsed_data`).

Python values are embedded as the inductive `PyVal` (floats as exact
rationals — no rounding occurs in any computation considered here), Python
exceptions as `Except PyErr`.  Calls into the Python runtime that the
repository does not define (`eval`, `float(str)`) are abstracted as function
parameters of the embedded definitions; `int(str)` is modelled concretely by
`pyIntParse` (strip whitespace, optional sign, decimal digit run).
-/


namespace NodeDescSpec

/-- Embedded Python values.  `typeObj` stands for a Python `type`/class
object, the degenerate result `eval` can produce (e.g. `eval "int"`);
`pyfloat` carries an exact rational. -/
inductive PyVal where
  | pynone : PyVal
  | pybool : Bool → PyVal
  | pyint : Int → PyVal
  | pyfloat : ℚ → PyVal
  | pystr : String → PyVal
  | typeObj : String → PyVal
  | tuple : List PyVal → PyVal
  | pylist : List PyVal → PyVal

/-- The Python exception kinds the embedded code can raise. -/
inductive PyErr where
  | valueError
  | typeError
  | keyError
  | indexError
deriving DecidableEq

/-- Characters Python `str.split()` and `int(str)` treat as whitespace. -/
def isPySpace (c : Char) : Bool :=
  c = ' ' || c = '\t' || c = '\n' || c = '\r' || c = '\x0b' || c = '\x0c'

/-- Strip leading and trailing whitespace from a character list. -/
def trimWs (l : List Char) : List Char :=
  ((l.dropWhile isPySpace).reverse.dropWhile isPySpace).reverse

/-- Accumulate the value of a decimal digit run; `none` on a non-digit. -/
def digitsValueAux : List Char → Nat → Option Nat
  | [], acc => some acc
  | c :: cs, acc =>
    if c.isDigit then digitsValueAux cs (acc * 10 + (c.toNat - 48)) else none

/-- Value of a non-empty decimal digit run, `none` otherwise. -/
def digitsValue : List Char → Option Nat
  | [] => none
  | c :: cs => digitsValueAux (c :: cs) 0

/-- Model of Python `int(str)`: strips surrounding whitespace, accepts an
optional sign followed by a non-empty run of decimal digits, raises
`ValueError` otherwise. -/
def pyIntParse (s : String) : Except PyErr Int :=
  match trimWs s.data with
  | '+' :: rest =>
    match digitsValue rest with
    | some n => .ok (n : Int)
    | none => .error .valueError
  | '-' :: rest =>
    match digitsValue rest with
    | some n => .ok (-(n : Int))
    | none => .error .valueError
  | l =>
    match digitsValue l with
    | some n => .ok (n : Int)
    | none => .error .valueError

/-- Model of Python `bool(val)` (truthiness).  Total: `bool` never raises. -/
def pyTruthy : PyVal → Bool
  | .pynone => false
  | .pybool b => b
  | .pyint n => n != 0
  | .pyfloat q => q != 0
  | .pystr s => s != ""
  | .typeObj _ => true
  | .tuple l => !l.isEmpty
  | .pylist l => !l.isEmpty

/-- Model of Python `int(val)` on the values flowing through `to_bool`:
bools and ints pass through, floats truncate toward zero, strings go through
`pyIntParse` (`ValueError` on failure), anything else is a `TypeError`. -/
def pyIntOf : PyVal → Except PyErr Int
  | .pybool b => .ok (if b then 1 else 0)
  | .pyint n => .ok n
  | .pyfloat q => .ok (if 0 ≤ q then ⌊q⌋ else ⌈q⌉)
  | .pystr s => pyIntParse s
  | _ => .error .typeError

/-- Embedding of `to_bool` (node_desc_param.py:23-33).

```
try:
    return bool(int(val))
except ValueError:
    try:
        return bool(val)
    except ValueError:
        if val in ('true', 'false'):
            return bool(val.capitalize())
raise ValueError('Failed to convert: %r' % val)
```

`bool(val)` never raises, so the inner `except ValueError`, the
`'true'`/`'false'` membership test and the final `raise` are unreachable
whenever the first conversion fails with `ValueError`; a non-`ValueError`
exception from `int(val)` (e.g. `TypeError`) propagates uncaught. -/
def to_bool (v : PyVal) : Except PyErr Bool :=
  match pyIntOf v with
  | .ok n => .ok (n != 0)
  | .error .valueError => .ok (pyTruthy v)
  | .error e => .error e

/-- Embedding of `safe_value_eval` (node_desc_param.py:78-90).  The Python
`eval` builtin is abstracted as `evalF`; `.error` covers every exception it
can raise (the source catches `BaseException`), and an `isinstance(val, type)`
result is the `typeObj` constructor.  In both of those cases the original
string is returned unchanged; the function itself is total (never raises). -/
def safe_value_eval (evalF : String → Except Unit PyVal) (raw : String) : PyVal :=
  match evalF raw with
  | .error _ => .pystr raw
  | .ok v => match v with
    | .typeObj _ => .pystr raw
    | _ => v

/-- Embedding of `VALID_TYPES` (node_desc_param.py:37-39). -/
def VALID_TYPES : List String :=
  ["int", "int2", "float", "float2", "color", "point", "vector",
   "normal", "matrix", "string", "struct", "lightfilter",
   "message", "displayfilter", "samplefilter", "bxdf"]

/-- Model of Python `repr` for the strings appearing in diagnostics (no
embedded quotes or backslashes): wrap in single quotes. -/
def pyReprStr (s : String) : String := "'" ++ s ++ "'"

/-- Embedding of `validate_type` (node_desc_param.py:93-97) together with the
`NodeDescError.__init__` message prefix (node_desc_param.py:59-64): returns
the type unchanged when it is in `VALID_TYPES`, otherwise raises a
`NodeDescError` whose message names the parameter and the offending type. -/
def validate_type (pname ptype : String) : Except String String :=
  if ptype ∈ VALID_TYPES then .ok ptype
  else .error ("NodeDesc Error: " ++ ("param " ++ pyReprStr pname ++
    " has invalid type: " ++ pyReprStr ptype))

/-! ## C-style float cleanup (`CFLOAT_REGEXP`, `_handle_c_style_floats`)

`CFLOAT_REGEXP = re.compile(r'[+-]?(\d+(\.\d*)?|\.\d+)([eE][+-]?\d+)?f').match`
(node_desc_param.py:53).  `re.match` anchors at the start of the string only:
it succeeds whenever some prefix of the input is matched.  The regex is
deterministic once read left to right (each optional piece is committed by
its first character, and no alternative can be re-taken later), so a
greedy one-pass matcher computes exactly the `re` result. -/

/-- Consume an optional sign, the `[+-]?` piece of the regex. -/
def cfSign : List Char → List Char
  | [] => []
  | c :: cs => if c = '+' || c = '-' then cs else c :: cs

/-- Consume the mantissa — the `(\d+(\.\d*)?|\.\d+)` piece — returning the remainder,
or `none` when no mantissa is present. -/
def cfMantissa (l : List Char) : Option (List Char) :=
  if (l.takeWhile Char.isDigit).isEmpty then
    match l with
    | c :: r =>
      if c = '.' then
        if (r.takeWhile Char.isDigit).isEmpty then none
        else some (r.dropWhile Char.isDigit)
      else none
    | [] => none
  else
    match l.dropWhile Char.isDigit with
    | c :: r => if c = '.' then some (r.dropWhile Char.isDigit) else some (c :: r)
    | [] => some []

/-- Consume an exponent (the `([eE][+-]?\d+)?` piece) when one is present; when the
next character is `e`/`E` but no well-formed exponent follows, the optional
group matches empty (and the subsequent `f` test fails anyway, since the
next character is `e`/`E`). -/
def cfExp (l : List Char) : List Char :=
  match l with
  | [] => []
  | c :: cs =>
    if c = 'e' || c = 'E' then
      if ((cfSign cs).takeWhile Char.isDigit).isEmpty then l
      else (cfSign cs).dropWhile Char.isDigit
    else l

/-- Evaluation of `CFLOAT_REGEXP(s)`: does some prefix of `s` match
`[+-]?(\d+(\.\d*)?|\.\d+)([eE][+-]?\d+)?f` ? -/
def cfloatMatch (s : String) : Bool :=
  match cfMantissa (cfSign s.data) with
  | none => false
  | some r =>
    match cfExp r with
    | 'f' :: _ => true
    | _ => false

/-- Modelled from the spec: "a trailing `f` on an otherwise well-formed
floating-point literal" — the whole string, not merely a prefix, is a
float literal followed by a single final `f`.  Used to compare the spec's
description with what `_handle_c_style_floats` actually implements. -/
def cfloatFullLiteralF (s : String) : Bool :=
  match cfMantissa (cfSign s.data) with
  | none => false
  | some r => cfExp r = ['f']

/-- Embedding of `_handle_c_style_floats` (node_desc_param.py:537-545): when
the regex matches a prefix, *every* `'f'` in the string is removed
(`val.replace('f', '')`); otherwise the string passes through unchanged. -/
def handle_c_style_floats (val : String) : String :=
  if cfloatMatch val then String.mk (val.data.filter (fun c => c ≠ 'f'))
  else val

/-! ## `_set_size` (node_desc_param.py:300-323) -/

/-- The value of the `size` attribute after `NodeDescParamXML._set_size`.
`unset` records the branch in which the Python method assigns nothing at
all, so that the instance has *no* `size` attribute (as opposed to
`scalar`, where `self.size = None` is assigned). -/
inductive SizeResult where
  | unset
  | scalar
  | size : Int → SizeResult
deriving DecidableEq

/-- Embedding of `NodeDescParamXML._set_size`.  The two inputs are the
`isDynamicArray` and `arraySize` XML attributes (`none` = attribute absent).
`int(...)` on the `arraySize` string is `pyIntParse` and may raise.

```
if pdata.hasAttribute('isDynamicArray'):
    if pdata.getAttribute('isDynamicArray') != '0':
        self.size = - 1
    elif pdata.hasAttribute('arraySize'):
        self.size = int(pdata.getAttribute('arraySize'))
elif pdata.hasAttribute('arraySize'):
    self.size = int(pdata.getAttribute('arraySize'))
else:
    self.size = None
```

Note the missing `else`: with `isDynamicArray = "0"` and no `arraySize`
attribute, no assignment happens (`SizeResult.unset`). -/
def set_size (isDynamicArray arraySize : Option String) : Except PyErr SizeResult :=
  match isDynamicArray with
  | some d =>
    if d ≠ "0" then .ok (.size (-1))
    else
      match arraySize with
      | some a => (pyIntParse a).map .size
      | none => .ok .unset
  | none =>
    match arraySize with
    | some a => (pyIntParse a).map .size
    | none => .ok .scalar

/-! ## `_set_default` (node_desc_param.py:325-374) and helpers -/

/-- Model of Python `str.split()` with no argument: split on runs of
whitespace, never producing empty tokens.  Single accumulator pass. -/
def pySplitAux : List Char → List Char → List String
  | [], acc => if acc.isEmpty then [] else [String.mk acc.reverse]
  | c :: cs, acc =>
    if isPySpace c then
      if acc.isEmpty then pySplitAux cs []
      else String.mk acc.reverse :: pySplitAux cs []
    else pySplitAux cs (c :: acc)

/-- Model of Python `str.split()` with no argument. -/
def pySplit (s : String) : List String := pySplitAux s.data []

/-- Is the first list a leading run of the second? -/
def startsWithL : List Char → List Char → Bool
  | [], _ => true
  | _ :: _, [] => false
  | a :: as, b :: bs => a = b && startsWithL as bs

/-- Does `n` occur as a contiguous run anywhere in the second list? -/
def strSubAux (n : List Char) : List Char → Bool
  | [] => startsWithL n []
  | c :: cs => startsWithL n (c :: cs) || strSubAux n cs

/-- Model of the Python substring test `needle in hay`. -/
def strContainsSub (needle hay : String) : Bool :=
  strSubAux needle.data hay.data

/-- The `pdefault.replace(' ', ',')` call of `_set_default` (node_desc_param.py:350). -/
def replaceSpaceComma (s : String) : String :=
  String.mk (s.data.map (fun c => if c = ' ' then ',' else c))

/-- Embedding of `DATA_TYPE_WIDTH` (node_desc_param.py:42-44); `none` means
the type is not a key of the dict (lookup raises `KeyError`). -/
def DATA_TYPE_WIDTH (t : String) : Option Nat :=
  if t = "int" then some 1
  else if t = "float" then some 1
  else if t = "color" then some 3
  else if t = "point" then some 3
  else if t = "vector" then some 3
  else if t = "normal" then some 3
  else if t = "matrix" then some 16
  else if t = "string" then some 0
  else if t = "struct" then some 0
  else none

/-- Convert each token in order, propagating the first conversion failure —
the Python `append` loops of `_set_default` (`tvals.append(str_to_num(...))`,
`self.default.append(str_to_num(val))`). -/
def convAll (conv : String → Except PyErr PyVal) :
    List String → Except PyErr (List PyVal)
  | [] => .ok []
  | t :: ts => do
    let v ← conv t
    let vs ← convAll conv ts
    .ok (v :: vs)

/-- The tuple-grouping loop of `_set_default` (node_desc_param.py:360-364):

```
for i in range(0, len(vals), twidth):
    tvals = []
    for j in range(twidth):
        tvals.append(str_to_num(vals[i + j]))
    self.default.append(tuple(tvals))
```

`range` with step `0` raises `ValueError`; `vals[i + j]` raises
`IndexError` when the token count is not a multiple of `twidth`; a failing
`str_to_num` conversion propagates its own exception. -/
def groupTuples (conv : String → Except PyErr PyVal) (twidth : Nat)
    (vals : List String) : Except PyErr (List PyVal) :=
  if h0 : twidth = 0 then .error .valueError
  else
    match vals with
    | [] => .ok []
    | v :: vs =>
      if (v :: vs).length < twidth then .error .indexError
      else do
        let tvals ← convAll conv ((v :: vs).take twidth)
        let rest ← groupTuples conv twidth ((v :: vs).drop twidth)
        .ok (PyVal.tuple tvals :: rest)
termination_by vals.length
decreasing_by
  simp only [List.length_drop, List.length_cons]
  omega

/-- Python list repetition `self.default * psize` (empty for `psize ≤ 0`). -/
def pyListRepeat (l : List PyVal) (n : Int) : List PyVal :=
  (List.replicate n.toNat l).flatten

/-- Embedding of `NodeDescParamXML._set_default` (node_desc_param.py:325-374).

Arguments: `evalF` abstracts Python `eval` (used through
`safe_value_eval`); `floatP`/`intP` abstract `float(str)` / `int(str)` — the
`str_to_num` conversion applied to each whitespace token of an array
default; `ptype` is `self.type`; `psize` is `getattr(self, 'size', None)`;
`defaultAttr` is the `default` XML attribute (`none` = absent).  The result
is the final value of `self.default` (`PyVal.pynone` when the attribute is
absent, matching the `self.default = None` initialisation). -/
def set_default (evalF : String → Except Unit PyVal)
    (floatP intP : String → Except PyErr PyVal)
    (ptype : String) (psize : Option Int)
    (defaultAttr : Option String) : Except PyErr PyVal :=
  match defaultAttr with
  | none => .ok PyVal.pynone
  | some raw =>
    if ptype = "struct" then .ok (.pystr "")
    else
      let pdefault := handle_c_style_floats raw
      if strContainsSub "string" ptype = false then
        match psize with
        | none => .ok (safe_value_eval evalF (replaceSpaceComma pdefault))
        | some n =>
          let vals := pySplit pdefault
          let str_to_num := if ptype = "int" then intP else floatP
          match DATA_TYPE_WIDTH ptype with
          | none => .error .keyError
          | some twidth =>
            if 1 < twidth then do
              let d ← groupTuples str_to_num twidth vals
              if d.length = 1 ∧ 0 < n then .ok (.pylist (pyListRepeat d n))
              else .ok (.pylist d)
            else do
              let d ← convAll str_to_num vals
              if d.length = 1 ∧ 0 < n then .ok (.pylist (pyListRepeat d n))
              else .ok (.pylist d)
      else .ok (.pystr pdefault)

/-! ## JSON `_postprocess_default` (node_desc_param.py:736-740) -/

/-- Model of Python `len()`: defined on sequences, `TypeError` otherwise. -/
def pyLen : PyVal → Except PyErr Int
  | .pylist l => .ok l.length
  | .tuple l => .ok l.length
  | .pystr s => .ok s.data.length
  | _ => .error .typeError

/-- Model of Python sequence repetition `seq * n` for the sequence kinds
`len()` accepts. -/
def pySeqRepeat : PyVal → Int → Except PyErr PyVal
  | .pylist l, n => .ok (.pylist ((List.replicate n.toNat l).flatten))
  | .tuple l, n => .ok (.tuple ((List.replicate n.toNat l).flatten))
  | .pystr s, n => .ok (.pystr (String.mk ((List.replicate n.toNat s.data).flatten)))
  | _, _ => .error .typeError

/-- Embedding of `NodeDescParamJSON._postprocess_default`:

```
if self.size and self.size > 0 and len(self.default) == 1:
    self.default = self.default * self.size
```

`self.size` truthy and `> 0` collapses to `0 < n`; `len` on a non-sequence
default raises `TypeError`.  Returns the final `self.default`. -/
def postprocess_default (size : Option Int) (default : PyVal) :
    Except PyErr PyVal :=
  match size with
  | none => .ok default
  | some n =>
    if 0 < n then do
      let len ← pyLen default
      if len = 1 then pySeqRepeat default n else .ok default
    else .ok default

/-! ## Parameter state and `NodeDescParam.finalize` (node_desc_param.py:169-195) -/

/-- The attributes of a `NodeDescParam` instance that the verified passes
read or write.  Optional XML/metadata attributes that may be absent from the
instance (`hasattr` tests) are `Option`-valued; `has_ui_struct` defaults to
`False` and `uiStruct` is only ever read when `has_ui_struct` is set, so it
is carried as a plain string. -/
structure ParamState where
  name : String
  type : String
  default : PyVal
  min : Option PyVal
  max : Option PyVal
  slidermin : Option PyVal
  slidermax : Option PyVal
  slider : Option PyVal
  conditionalVisOps : List (String × PyVal)
  trigger_params : List String
  conditionalVisTrigger : Bool
  has_ui_struct : Bool
  uiStruct : String

/-- Embedding of `DEFAULT_VALUE` (node_desc_param.py:45-52) together with the
`.get(self.type, None)` access in `finalize`: types not in the table give
Python `None`. -/
def DEFAULT_VALUE (t : String) : PyVal :=
  if t = "float" then .pyfloat 0
  else if t = "float2" then .tuple [.pyfloat 0, .pyfloat 0]
  else if t = "float3" then .tuple [.pyfloat 0, .pyfloat 0, .pyfloat 0]
  else if t = "int" then .pyint 0
  else if t = "int2" then .tuple [.pyint 0, .pyint 0]
  else if t = "color" then .tuple [.pyfloat 0, .pyfloat 0, .pyfloat 0]
  else if t = "normal" then .tuple [.pyfloat 0, .pyfloat 0, .pyfloat 0]
  else if t = "vector" then .tuple [.pyfloat 0, .pyfloat 0, .pyfloat 0]
  else if t = "point" then .tuple [.pyfloat 0, .pyfloat 0, .pyfloat 0]
  else if t = "string" then .pystr ""
  else if t = "matrix" then .tuple
    [.pyfloat 1, .pyfloat 0, .pyfloat 0, .pyfloat 0,
     .pyfloat 0, .pyfloat 1, .pyfloat 0, .pyfloat 0,
     .pyfloat 0, .pyfloat 0, .pyfloat 1, .pyfloat 0,
     .pyfloat 0, .pyfloat 0, .pyfloat 0, .pyfloat 1]
  else if t = "message" then .pynone
  else .pynone

/-- Numeric view of a `PyVal` for Python comparison operators (`bool` counts
as an integer); `none` for non-numeric values, whose comparison with a float
raises `TypeError`. -/
def pyNum : PyVal → Option ℚ
  | .pyint n => some (n : ℚ)
  | .pyfloat q => some q
  | .pybool b => some (if b then 1 else 0)
  | _ => none

/-- Python `max(a, b)`: returns `b` when `b > a`, else `a`; `TypeError` when
the two are not comparable numbers. -/
def pymax (a b : PyVal) : Except PyErr PyVal :=
  match pyNum a, pyNum b with
  | some x, some y => .ok (if x < y then b else a)
  | _, _ => .error .typeError

/-- Python `min(a, b)`: returns `b` when `b < a`, else `a`; `TypeError` when
the two are not comparable numbers. -/
def pymin (a b : PyVal) : Except PyErr PyVal :=
  match pyNum a, pyNum b with
  | some x, some y => .ok (if y < x then b else a)
  | _, _ => .error .typeError

/-- The `self.default is None` identity test in `finalize`. -/
def PyVal.isNone : PyVal → Bool
  | .pynone => true
  | _ => false

/-- Embedding of `NodeDescParam.finalize` (node_desc_param.py:169-195):

```
if self.default is None:
    self.default = DEFAULT_VALUE.get(self.type, None)
if self.type in ['float', 'int']:
    if hasattr(self, 'min'):
        if not hasattr(self, 'max') and not hasattr(self, 'slidermax'):
            setattr(self, 'slidermax', max(self.default, 1.0))
    elif hasattr(self, 'slider'):
        if not hasattr(self, 'min') and not hasattr(self, 'slidermin'):
            setattr(self, 'slidermin', min(self.default, 0.0))
        if not hasattr(self, 'max') and not hasattr(self, 'slidermax'):
            setattr(self, 'slidermax', max(self.default, 1.0))
if self.conditionalVisOps and self.build_condvis_func is not None:
    self.build_condvis_func(self.conditionalVisOps, self.trigger_params)
```

The caller-supplied visibility builder is abstracted as `bc`; it receives
the operand dictionary and the current trigger list and returns the new
trigger list (the Python callback extends the list in place). -/
def finalize (bc : Option (List (String × PyVal) → List String → List String))
    (p0 : ParamState) : Except PyErr ParamState := do
  let p1 := if p0.default.isNone then { p0 with default := DEFAULT_VALUE p0.type } else p0
  let p2 ←
    if p1.type = "float" ∨ p1.type = "int" then
      if p1.min.isSome then
        if p1.max.isNone ∧ p1.slidermax.isNone then do
          let m ← pymax p1.default (.pyfloat 1)
          pure { p1 with slidermax := some m }
        else pure p1
      else if p1.slider.isSome then do
        let p ←
          if p1.min.isNone ∧ p1.slidermin.isNone then do
            let m ← pymin p1.default (.pyfloat 0)
            pure { p1 with slidermin := some m }
          else pure p1
        if p.max.isNone ∧ p.slidermax.isNone then do
          let m ← pymax p.default (.pyfloat 1)
          pure { p with slidermax := some m }
        else pure p
      else pure p1
    else pure p1
  match bc with
  | some f =>
    if p2.conditionalVisOps.isEmpty then pure p2
    else pure { p2 with trigger_params := f p2.conditionalVisOps p2.trigger_params }
  | none => pure p2

/-- Model of Python `eval` restricted to integer literals, used where a
concrete evaluator is needed (the XML attribute strings `"0"` and `"1"`):
an integer literal evaluates to the integer, everything else raises.  This
is conservative but exact on the inputs it is applied to. -/
def pyEvalLit (s : String) : Except Unit PyVal :=
  match pyIntParse s with
  | .ok n => .ok (.pyint n)
  | .error _ => .error ()

/-- The pre-`finalize` state of the XML parameter
`<param name="foo" type="float" min="0" slider="1"/>`: no `default`
attribute (so `self.default` keeps its `None` initialisation), and the
optional-attribute loop of `_set_optional_attributes` stores
`min = safe_value_eval('0')` and `slider = safe_value_eval('1')` after the
C-style float cleanup (node_desc_param.py:498-513). -/
def c5Param : ParamState where
  name := "foo"
  type := "float"
  default := .pynone
  min := some (safe_value_eval pyEvalLit (handle_c_style_floats "0"))
  max := none
  slidermin := none
  slidermax := none
  slider := some (safe_value_eval pyEvalLit (handle_c_style_floats "1"))
  conditionalVisOps := []
  trigger_params := []
  conditionalVisTrigger := false
  has_ui_struct := false
  uiStruct := ""

/-! ## `NodeDesc` state, post-parse passes and `clear_parsed_data`
(node_desc.py:104-258) -/

/-- The fields of a `NodeDesc` instance (node_desc.py:118-149).  The raw
parse tree kept in `self._parsed_data` (XML DOM / OSL query handle / JSON
tree) is abstracted by the type parameter `δ`.  The lazily-built lookup
dicts are carried as optional association lists. -/
structure NodeDescState (δ : Type) where
  name : Option String
  node_type : Option String
  rman_node_type : Option String
  help : Option String
  params : List ParamState
  outputs : List ParamState
  attributes : List ParamState
  param_dict : Option (List (String × ParamState))
  attribute_dict : Option (List (String × ParamState))
  output_dict : Option (List (String × ParamState))
  textured_params : List ParamState
  pages_condvis_dict : List (String × PyVal)
  pages_trigger_params : List String
  ui_structs : List (String × List String)
  ui_struct_membership : List (String × String)
  parsed_data : Option δ
  parsed_data_type : Option String

/-- Embedding of `NodeDesc.clear_parsed_data` (node_desc.py:159-162):
`self._parsed_data = None` and nothing else. -/
def clear_parsed_data {δ : Type} (nd : NodeDescState δ) : NodeDescState δ :=
  { nd with parsed_data := none }

/-- The `notes` cleanup loop of `NodeDesc._parse_node` (node_desc.py:231-235):

```
for i in range(len(self.params)):
    if self.params[i].name == 'notes' and self.params[i].type == 'string':
        del self.params[i]
        break
```

The `break` right after the `del` makes this "remove the first parameter
named `notes` of type `string`, if any". -/
def isNotesString (p : ParamState) : Bool :=
  p.name == "notes" && p.type == "string"

/-- See `isNotesString`: the `notes` cleanup loop itself. -/
def removeFirstNotes : List ParamState → List ParamState
  | [] => []
  | p :: ps =>
    if isNotesString p then ps
    else p :: removeFirstNotes ps

/-- Python `dict[key].append(v)` after a membership guard
(node_desc.py:246-248), on an insertion-ordered association list. -/
def dictListAppend (l : List (String × List String)) (k v : String) :
    List (String × List String) :=
  match l with
  | [] => [(k, [v])]
  | (k2, vs) :: rest =>
    if k2 = k then (k2, vs ++ [v]) :: rest
    else (k2, vs) :: dictListAppend rest k v

/-- Python `dict[key] = v` on an insertion-ordered association list
(node_desc.py:249). -/
def dictSet (l : List (String × String)) (k v : String) :
    List (String × String) :=
  match l with
  | [] => [(k, v)]
  | (k2, v2) :: rest =>
    if k2 = k then (k2, v) :: rest
    else (k2, v2) :: dictSet rest k v

/-- One iteration of the collection loop of `_parse_node`
(node_desc.py:241-249).  `trigger_params_list = self.pages_trigger_params`
aliases the attribute, so `trigger_params_list += ...` extends
`self.pages_trigger_params` itself:

```
trigger_params_list = self.pages_trigger_params
for prm in self.params:
    trigger_params_list += prm.condvis_trigger_params()
    if prm.has_ui_struct:
        struct_name = prm.uiStruct
        if struct_name not in self.ui_structs:
            self.ui_structs[struct_name] = []
        self.ui_structs[struct_name].append(prm.name)
        self.ui_struct_membership[prm.name] = struct_name
``` -/
def collectStep {δ : Type} (acc : NodeDescState δ) (p : ParamState) :
    NodeDescState δ :=
  let acc2 := { acc with
    pages_trigger_params := acc.pages_trigger_params ++ p.trigger_params }
  if p.has_ui_struct then
    { acc2 with
      ui_structs := dictListAppend acc2.ui_structs p.uiStruct p.name,
      ui_struct_membership := dictSet acc2.ui_struct_membership p.name p.uiStruct }
  else acc2

/-- The collection loop of `_parse_node` over `self.params`. -/
def collectPass {δ : Type} (nd : NodeDescState δ) : NodeDescState δ :=
  nd.params.foldl collectStep nd

/-- The marking loop of `_parse_node` (node_desc.py:253-258).  The source
first de-duplicates with `list(set(trigger_params_list))`, which preserves
membership — and only membership is consulted:

```
for prm in self.params:
    if prm.name in trigger_params_list:
        prm.condvis_set_trigger(True)
``` -/
def markTrigger (triggers : List String) (p : ParamState) : ParamState :=
  if p.name ∈ triggers then { p with conditionalVisTrigger := true } else p

/-- See `markTrigger`: the marking loop over `self.params`. -/
def markPass {δ : Type} (nd : NodeDescState δ) : NodeDescState δ :=
  { nd with params := nd.params.map (markTrigger nd.pages_trigger_params) }

/-- The tail of `NodeDesc._parse_node` after format dispatch
(node_desc.py:231-258): `notes` cleanup, then trigger/struct collection,
then trigger marking. -/
def parseNodePost {δ : Type} (nd : NodeDescState δ) : NodeDescState δ :=
  markPass (collectPass { nd with params := removeFirstNotes nd.params })

/-! ## Concrete instances used to exercise the embedded operations -/

/-- A parameter carrying only a name and a type, every optional attribute
absent — the state produced for `<param name="nm" type="ty"/>` before any
optional attribute is stored. -/
def mkParam (nm ty : String) : ParamState where
  name := nm
  type := ty
  default := .pynone
  min := none
  max := none
  slidermin := none
  slidermax := none
  slider := none
  conditionalVisOps := []
  trigger_params := []
  conditionalVisTrigger := false
  has_ui_struct := false
  uiStruct := ""

/-- A freshly initialised `NodeDesc` state (the `__init__` assignments,
node_desc.py:118-149) with an XML parse tree attached. -/
def emptyNode : NodeDescState Unit where
  name := some "Test"
  node_type := some "pattern"
  rman_node_type := some "Test"
  help := none
  params := []
  outputs := []
  attributes := []
  param_dict := none
  attribute_dict := none
  output_dict := none
  textured_params := []
  pages_condvis_dict := []
  pages_trigger_params := []
  ui_structs := []
  ui_struct_membership := []
  parsed_data := some ()
  parsed_data_type := some "xml"

/-- A node whose `params` hold *two* `notes`/`string` parameters and whose
`outputs` hold one. -/
def c3Node : NodeDescState Unit :=
  { emptyNode with
    params := [mkParam "notes" "string", mkParam "notes" "string"],
    outputs := [mkParam "notes" "string"] }

/-- A node with a single `notes`/`string` parameter next to an ordinary one. -/
def c3WitnessNode : NodeDescState Unit :=
  { emptyNode with
    params := [mkParam "notes" "string", mkParam "size" "float"],
    outputs := [mkParam "resultRGB" "color"] }

/-- A node with one page-level trigger and one parameter-level trigger. -/
def c10Node : NodeDescState Unit :=
  { emptyNode with
    params := [{ mkParam "a" "float" with trigger_params := ["x"] }],
    pages_trigger_params := ["pg"] }

/-- Model of Python `eval` on strings naming builtin types: `eval "int"`
yields the `int` type object itself, not a value. -/
def evalTypeNames (s : String) : Except Unit PyVal :=
  if s ∈ ["int", "float", "str", "bool", "list", "tuple", "dict", "type"] then
    .ok (.typeObj s)
  else .error ()

/-! ## Helper lemmas on the post-parse passes -/

theorem collectStep_params {δ : Type} (acc : NodeDescState δ) (p : ParamState) :
    (collectStep acc p).params = acc.params := by
  simp only [collectStep]
  split <;> rfl

theorem collectStep_outputs {δ : Type} (acc : NodeDescState δ) (p : ParamState) :
    (collectStep acc p).outputs = acc.outputs := by
  simp only [collectStep]
  split <;> rfl

theorem collectStep_attributes {δ : Type} (acc : NodeDescState δ) (p : ParamState) :
    (collectStep acc p).attributes = acc.attributes := by
  simp only [collectStep]
  split <;> rfl

theorem collectStep_triggers {δ : Type} (acc : NodeDescState δ) (p : ParamState) :
    (collectStep acc p).pages_trigger_params =
      acc.pages_trigger_params ++ p.trigger_params := by
  simp only [collectStep]
  split <;> rfl

theorem collectFold_params {δ : Type} (ps : List ParamState)
    (acc : NodeDescState δ) : (ps.foldl collectStep acc).params = acc.params := by
  induction ps generalizing acc with
  | nil => rfl
  | cons p ps ih => rw [List.foldl_cons, ih, collectStep_params]

theorem collectFold_outputs {δ : Type} (ps : List ParamState)
    (acc : NodeDescState δ) : (ps.foldl collectStep acc).outputs = acc.outputs := by
  induction ps generalizing acc with
  | nil => rfl
  | cons p ps ih => rw [List.foldl_cons, ih, collectStep_outputs]

theorem collectFold_attributes {δ : Type} (ps : List ParamState)
    (acc : NodeDescState δ) :
    (ps.foldl collectStep acc).attributes = acc.attributes := by
  induction ps generalizing acc with
  | nil => rfl
  | cons p ps ih => rw [List.foldl_cons, ih, collectStep_attributes]

theorem collectFold_triggers {δ : Type} (ps : List ParamState)
    (acc : NodeDescState δ) :
    (ps.foldl collectStep acc).pages_trigger_params =
      acc.pages_trigger_params ++ (ps.map ParamState.trigger_params).flatten := by
  induction ps generalizing acc with
  | nil => simp
  | cons p ps ih =>
    rw [List.foldl_cons, ih, collectStep_triggers]
    simp [List.append_assoc]

theorem markTrigger_trigger_params (ts : List String) (p : ParamState) :
    (markTrigger ts p).trigger_params = p.trigger_params := by
  unfold markTrigger
  split <;> rfl

theorem isNotesString_markTrigger (ts : List String) (p : ParamState) :
    isNotesString (markTrigger ts p) = isNotesString p := by
  unfold markTrigger isNotesString
  split <;> rfl

theorem parseNodePost_params {δ : Type} (nd : NodeDescState δ) :
    (parseNodePost nd).params = (removeFirstNotes nd.params).map
      (markTrigger (parseNodePost nd).pages_trigger_params) := by
  unfold parseNodePost markPass collectPass
  rw [collectFold_params]

theorem parseNodePost_triggers {δ : Type} (nd : NodeDescState δ) :
    (parseNodePost nd).pages_trigger_params =
      nd.pages_trigger_params ++
        ((removeFirstNotes nd.params).map ParamState.trigger_params).flatten := by
  unfold parseNodePost markPass collectPass
  rw [collectFold_triggers]

theorem removeFirstNotes_no_match :
    ∀ l : List ParamState, l.countP isNotesString ≤ 1 →
      ∀ p ∈ removeFirstNotes l, isNotesString p = false := by
  intro l
  induction l with
  | nil =>
    intro _ p hp
    simp [removeFirstNotes] at hp
  | cons q l ih =>
    intro h p hp
    rw [List.countP_cons] at h
    by_cases hq : isNotesString q = true
    · rw [removeFirstNotes, if_pos hq] at hp
      have hc : l.countP isNotesString = 0 := by
        simp only [hq, if_pos] at h
        omega
      have hnot := List.countP_eq_zero.mp hc p hp
      simpa using hnot
    · rw [removeFirstNotes, if_neg hq] at hp
      rcases List.mem_cons.mp hp with hqp | hmem
      · rw [hqp]
        simpa using hq
      · refine ih ?_ p hmem
        simp only [hq, if_neg, if_false] at h
        omega

/-! ## Helper lemmas for the array-default broadcast -/

theorem convAll_ok_of_forall (conv : String → Except PyErr PyVal) :
    ∀ l : List String, (∀ t ∈ l, ∃ v, conv t = .ok v) →
      ∃ vs, convAll conv l = .ok vs ∧ vs.length = l.length := by
  intro l
  induction l with
  | nil => exact fun _ => ⟨[], rfl, rfl⟩
  | cons t ts ih =>
    intro h
    rcases h t (List.mem_cons_self t ts) with ⟨v, hv⟩
    rcases ih (fun u hu => h u (List.mem_cons_of_mem t hu)) with ⟨vs, hvs, hlen⟩
    refine ⟨v :: vs, ?_, by simp [hlen]⟩
    simp only [convAll, hv, hvs]
    rfl

theorem groupTuples_nil (conv : String → Except PyErr PyVal) (tw : Nat)
    (h : ¬ tw = 0) : groupTuples conv tw [] = .ok [] := by
  rw [groupTuples, dif_neg h]

theorem groupTuples_exact (conv : String → Except PyErr PyVal) (tw : Nat)
    (vals : List String) (vs : List PyVal) (htw : 1 < tw)
    (hlen : vals.length = tw) (hcv : convAll conv vals = .ok vs) :
    groupTuples conv tw vals = .ok [PyVal.tuple vs] := by
  have h0 : ¬ tw = 0 := by omega
  cases vals with
  | nil =>
    simp at hlen
    omega
  | cons v rest =>
    have hnl : ¬ ((v :: rest).length < tw) := by omega
    have htake : (v :: rest).take tw = v :: rest := by
      rw [← hlen]
      exact List.take_length _
    have hdrop : (v :: rest).drop tw = [] := by
      rw [← hlen]
      exact List.drop_length _
    rw [groupTuples, dif_neg h0]
    simp only [if_neg hnl, htake, hdrop, hcv, groupTuples_nil conv tw h0]
    rfl

theorem flatten_replicate_singleton (k : Nat) (x : PyVal) :
    (List.replicate k [x]).flatten = List.replicate k x := by
  induction k with
  | zero => rfl
  | succ k ih => simp [List.replicate_succ, ih]

theorem except_ok_bind {α β : Type} (a : α) (f : α → Except PyErr β) :
    (Except.ok a >>= f) = f a := rfl

/-! ## Helper lemmas for the C-style float cleanup -/

theorem takeWhile_digit_ne_f (l : List Char) :
    ∀ c ∈ l.takeWhile Char.isDigit, c ≠ 'f' := by
  intro c hc hf
  have hd := List.mem_takeWhile_imp hc
  rw [hf] at hd
  exact absurd hd (by decide)

theorem cfSign_decomp (l : List Char) :
    ∃ pre, l = pre ++ cfSign l ∧ ∀ c ∈ pre, c ≠ 'f' := by
  cases l with
  | nil => exact ⟨[], rfl, by simp⟩
  | cons c cs =>
    by_cases h1 : c = '+'
    · subst h1
      refine ⟨['+'], by simp [cfSign], ?_⟩
      intro x hx
      rcases List.mem_singleton.mp hx with rfl
      decide
    · by_cases h2 : c = '-'
      · subst h2
        refine ⟨['-'], by simp [cfSign], ?_⟩
        intro x hx
        rcases List.mem_singleton.mp hx with rfl
        decide
      · exact ⟨[], by simp [cfSign, h1, h2], by simp⟩

theorem cfMantissa_decomp (l r : List Char) (h : cfMantissa l = some r) :
    ∃ pre, l = pre ++ r ∧ ∀ c ∈ pre, c ≠ 'f' := by
  unfold cfMantissa at h
  by_cases hd : (l.takeWhile Char.isDigit).isEmpty
  · rw [if_pos hd] at h
    cases l with
    | nil => exact absurd h (by simp)
    | cons c cs =>
      by_cases hc : c = '.'
      · subst hc
        have h2 : (if (cs.takeWhile Char.isDigit).isEmpty then none
            else some (cs.dropWhile Char.isDigit)) = some r := h
        by_cases hcs : (cs.takeWhile Char.isDigit).isEmpty
        · rw [if_pos hcs] at h2
          exact absurd h2 (by simp)
        · rw [if_neg hcs] at h2
          have hr : r = cs.dropWhile Char.isDigit := by
            injection h2 with h'
            exact h'.symm
          refine ⟨'.' :: cs.takeWhile Char.isDigit, ?_, ?_⟩
          · rw [hr]
            simp [List.takeWhile_append_dropWhile]
          · intro x hx
            rcases List.mem_cons.mp hx with rfl | hx2
            · decide
            · exact takeWhile_digit_ne_f cs x hx2
      · have h2 : (if c = '.' then
            (if (cs.takeWhile Char.isDigit).isEmpty then none
              else some (cs.dropWhile Char.isDigit)) else none) = some r := h
        rw [if_neg hc] at h2
        exact absurd h2 (by simp)
  · rw [if_neg hd] at h
    cases hdrop : l.dropWhile Char.isDigit with
    | nil =>
      rw [hdrop] at h
      have h2 : (some ([] : List Char)) = some r := h
      have hr : r = [] := by
        injection h2 with h'
        exact h'.symm
      refine ⟨l.takeWhile Char.isDigit, ?_, takeWhile_digit_ne_f l⟩
      rw [hr, List.append_nil]
      have hl := List.takeWhile_append_dropWhile Char.isDigit l
      rw [hdrop, List.append_nil] at hl
      exact hl.symm
    | cons c cs =>
      rw [hdrop] at h
      have hl : l = l.takeWhile Char.isDigit ++ (c :: cs) := by
        have hl0 := List.takeWhile_append_dropWhile Char.isDigit l
        rw [hdrop] at hl0
        exact hl0.symm
      have h2 : (if c = '.' then some (cs.dropWhile Char.isDigit)
          else some (c :: cs)) = some r := h
      by_cases hc : c = '.'
      · subst hc
        rw [if_pos rfl] at h2
        have hr : r = cs.dropWhile Char.isDigit := by
          injection h2 with h'
          exact h'.symm
        refine ⟨l.takeWhile Char.isDigit ++ '.' :: cs.takeWhile Char.isDigit,
          ?_, ?_⟩
        · rw [hr]
          conv_lhs => rw [hl]
          simp [List.append_assoc, List.takeWhile_append_dropWhile]
        · intro x hx
          rcases List.mem_append.mp hx with hx1 | hx2
          · exact takeWhile_digit_ne_f l x hx1
          · rcases List.mem_cons.mp hx2 with rfl | hx3
            · decide
            · exact takeWhile_digit_ne_f cs x hx3
      · rw [if_neg hc] at h2
        have hr : r = c :: cs := by
          injection h2 with h'
          exact h'.symm
        refine ⟨l.takeWhile Char.isDigit, ?_, takeWhile_digit_ne_f l⟩
        rw [hr]
        exact hl

theorem cfExp_decomp (l : List Char) :
    ∃ pre, l = pre ++ cfExp l ∧ ∀ c ∈ pre, c ≠ 'f' := by
  cases l with
  | nil => exact ⟨[], rfl, by simp⟩
  | cons c cs =>
    by_cases he : c = 'e' ∨ c = 'E'
    · by_cases hdig : ((cfSign cs).takeWhile Char.isDigit).isEmpty
      · refine ⟨[], ?_, by simp⟩
        rcases he with rfl | rfl <;> simp [cfExp, hdig]
      · rcases cfSign_decomp cs with ⟨ps, hcs, hps⟩
        refine ⟨c :: (ps ++ (cfSign cs).takeWhile Char.isDigit), ?_, ?_⟩
        · have hexp : cfExp (c :: cs) = (cfSign cs).dropWhile Char.isDigit := by
            rcases he with rfl | rfl <;> simp [cfExp, hdig]
          rw [hexp, List.cons_append, List.append_assoc,
            List.takeWhile_append_dropWhile, ← hcs]
        · intro x hx
          rcases List.mem_cons.mp hx with rfl | hx2
          · rcases he with rfl | rfl <;> decide
          · rcases List.mem_append.mp hx2 with hx3 | hx4
            · exact hps x hx3
            · exact takeWhile_digit_ne_f (cfSign cs) x hx4
    · have h1 : ¬ c = 'e' := fun hh => he (Or.inl hh)
      have h2 : ¬ c = 'E' := fun hh => he (Or.inr hh)
      exact ⟨[], by simp [cfExp, h1, h2], by simp⟩

theorem cfloatFull_decomp (s : String) (h : cfloatFullLiteralF s = true) :
    ∃ body, s.data = body ++ ['f'] ∧ ∀ c ∈ body, c ≠ 'f' := by
  unfold cfloatFullLiteralF at h
  cases hm : cfMantissa (cfSign s.data) with
  | none =>
    rw [hm] at h
    simp at h
  | some r =>
    rw [hm] at h
    have hexp : cfExp r = ['f'] := by simpa using h
    rcases cfSign_decomp s.data with ⟨p0, h0, hp0⟩
    rcases cfMantissa_decomp (cfSign s.data) r hm with ⟨p1, h1, hp1⟩
    rcases cfExp_decomp r with ⟨p2, h2, hp2⟩
    rw [hexp] at h2
    refine ⟨p0 ++ p1 ++ p2, ?_, ?_⟩
    · rw [h0, h1, h2]
      simp [List.append_assoc]
    · intro x hx
      rcases List.mem_append.mp hx with hx' | hx2
      · rcases List.mem_append.mp hx' with hx0 | hx1
        · exact hp0 x hx0
        · exact hp1 x hx1
      · exact hp2 x hx2

/-! ## Claim theorems -/

/-- C1: for every string input and every behaviour of the underlying `eval`,
`safe_value_eval` returns a value (it is total, i.e. never raises); whenever
`eval` raises, or returns a bare type/class object, the original input
string is returned unchanged; otherwise the evaluated value is returned. -/
theorem safe_value_eval_never_raises
    (evalF : String → Except Unit PyVal) (raw : String) :
    (safe_value_eval evalF raw = .pystr raw ∨
      ∃ v, evalF raw = .ok v ∧ safe_value_eval evalF raw = v) ∧
    (∀ e, evalF raw = .error e → safe_value_eval evalF raw = .pystr raw) ∧
    (∀ t, evalF raw = .ok (.typeObj t) → safe_value_eval evalF raw = .pystr raw) := by
  refine ⟨?_, ?_, ?_⟩
  · unfold safe_value_eval
    cases h : evalF raw with
    | error e => exact Or.inl rfl
    | ok v =>
      cases v
      case typeObj t => exact Or.inl rfl
      all_goals exact Or.inr ⟨_, rfl, rfl⟩
  · intro e he
    simp [safe_value_eval, he]
  · intro t ht
    simp [safe_value_eval, ht]

/-- Witness for C1: evaluating the string `"int"` with an evaluator that
returns the `int` type object falls back to the literal string `"int"`. -/
theorem safe_value_eval_never_raises_witness :
    safe_value_eval evalTypeNames "int" = .pystr "int" :=
  (safe_value_eval_never_raises evalTypeNames "int").2.2 "int" rfl

/-- C4 (failing input): an XML element with `isDynamicArray="0"` and no
`arraySize` attribute leaves the `size` attribute entirely unassigned
(`SizeResult.unset`) — which differs from the claimed scalar outcome
`self.size = None` (`SizeResult.scalar`), reached only when `isDynamicArray`
is absent. -/
theorem set_size_dynzero_unassigned :
    set_size (some "0") none = .ok SizeResult.unset ∧
    SizeResult.unset ≠ SizeResult.scalar ∧
    set_size none none = .ok SizeResult.scalar ∧
    set_size (some "1") none = .ok (SizeResult.size (-1)) ∧
    set_size (some "0") (some "4") = .ok (SizeResult.size 4) ∧
    set_size none (some "4") = .ok (SizeResult.size 4) :=
  ⟨rfl, by decide, rfl, rfl, rfl, rfl⟩

/-- C5 (counterexample): finalizing the XML float parameter declared with
`min="0"`, `slider="1"` and no default leaves `slidermin` *unset* — the
claimed `slidermin == 0.0` does not hold, because the `min`-present branch
of `finalize` only ever derives a soft maximum. -/
theorem finalize_min_slider_no_slidermin :
    (finalize none c5Param).map ParamState.slidermin = .ok none := rfl

/-- C5 (amended): the same parameter is finalized with `default == 0.0` and
`slidermax == 1.0`, while `slidermin` is left unset (`min` itself holds the
evaluated `0`). -/
theorem finalize_min_slider_amended :
    ∃ p, finalize none c5Param = .ok p ∧ p.default = .pyfloat 0 ∧
      p.slidermax = some (.pyfloat 1) ∧ p.slidermin = none ∧
      p.min = some (.pyint 0) :=
  ⟨_, rfl, rfl, rfl, rfl, rfl⟩

/-- C6 (counterexample): the type vocabulary `VALID_TYPES` has 16 entries,
not 13 as claimed. -/
theorem valid_types_not_13 :
    VALID_TYPES.length ≠ 13 ∧ VALID_TYPES.length = 16 :=
  ⟨by decide, by decide⟩

/-- C6 (amended): `validate_type` returns the type unchanged for each member
of the fixed 16-entry vocabulary, and for any type string outside it raises
a structured error whose message contains both the parameter name and the
offending type string. -/
theorem validate_type_vocabulary :
    VALID_TYPES.length = 16 ∧
    (∀ pname ptype, ptype ∈ VALID_TYPES → validate_type pname ptype = .ok ptype) ∧
    (∀ pname ptype, ptype ∉ VALID_TYPES → ∃ msg l r l2 r2,
      validate_type pname ptype = .error msg ∧
      msg = l ++ pname ++ r ∧ msg = l2 ++ ptype ++ r2) := by
  refine ⟨by decide, ?_, ?_⟩
  · intro pname ptype h
    simp [validate_type, h]
  · intro pname ptype h
    refine ⟨"NodeDesc Error: " ++ ("param " ++ pyReprStr pname ++
        " has invalid type: " ++ pyReprStr ptype),
      "NodeDesc Error: " ++ "param " ++ "'",
      "'" ++ " has invalid type: " ++ "'" ++ ptype ++ "'",
      "NodeDesc Error: " ++ "param " ++ "'" ++ pname ++ "'" ++
        " has invalid type: " ++ "'",
      "'", ?_, ?_, ?_⟩
    all_goals
      have m1 : ∀ x : String,
          ("NodeDesc Error: " : String) ++ ("param " ++ ("'" ++ x)) =
            "NodeDesc Error: param '" ++ x := by
        intro x
        rw [← String.append_assoc, ← String.append_assoc]
        exact congrArg (fun y => y ++ x) (by decide)
    all_goals
      have m2 : ∀ x : String,
          ("' has invalid type: " : String) ++ ("'" ++ x) =
            "' has invalid type: '" ++ x := by
        intro x
        rw [← String.append_assoc]
        exact congrArg (fun y => y ++ x) (by decide)
    · simp [validate_type, h]
    · simp [pyReprStr, String.append_assoc, m1, m2]
    · simp [pyReprStr, String.append_assoc, m1, m2]

/-- Witness for C6: a member type passes through unchanged, and the error
for the non-member `"banana"` on parameter `"foo"` carries both names. -/
theorem validate_type_vocabulary_witness :
    validate_type "p" "float" = .ok "float" ∧
    ∃ msg l r l2 r2, validate_type "foo" "banana" = .error msg ∧
      msg = l ++ "foo" ++ r ∧ msg = l2 ++ "banana" ++ r2 :=
  ⟨validate_type_vocabulary.2.1 "p" "float" (by decide),
   validate_type_vocabulary.2.2 "foo" "banana" (by decide)⟩

/-- C7 (failing input): `to_bool` does *not* raise on arbitrary strings:
`bool(val)` in the fallback never raises, so `to_bool("banana")` returns
`True` (truthiness of a non-empty string) and `to_bool("")` returns `False`,
where the claim demands a `ValueError`; even `"false"` yields `True`.  The
`"0"`/`"1"`/bool cases behave as claimed. -/
theorem to_bool_fallback_never_raises :
    to_bool (.pystr "banana") = .ok true ∧
    to_bool (.pystr "false") = .ok true ∧
    to_bool (.pystr "") = .ok false ∧
    to_bool (.pystr "0") = .ok false ∧
    to_bool (.pystr "1") = .ok true ∧
    to_bool (.pybool true) = .ok true ∧
    to_bool (.pybool false) = .ok false :=
  ⟨rfl, rfl, rfl, rfl, rfl, rfl, rfl⟩

/-- C8 (counterexample): `"1fx"` is *not* a well-formed float literal with a
trailing `f`, yet it does not pass through unchanged: the regex is only
anchored at the start, so the prefix `"1f"` matches and `replace('f', '')`
rewrites the string to `"1x"`. -/
theorem c_style_float_not_shape_changed :
    cfloatFullLiteralF "1fx" = false ∧
    handle_c_style_floats "1fx" = "1x" ∧
    ("1x" : String) ≠ "1fx" :=
  ⟨rfl, rfl, by decide⟩

/-- C8 (amended): strings without a C-float-literal prefix match pass
through unchanged; a prefix match removes *every* `'f'` in the string (not
only the trailing one); in particular a string that is exactly a
well-formed float literal followed by `'f'` loses exactly that final
character (the literal itself cannot contain `'f'`). -/
theorem c_style_float_cleanup :
    (∀ s, cfloatMatch s = false → handle_c_style_floats s = s) ∧
    (∀ s, cfloatMatch s = true →
      handle_c_style_floats s = String.mk (s.data.filter (fun c => c ≠ 'f'))) ∧
    (∀ s, cfloatFullLiteralF s = true →
      handle_c_style_floats s = String.mk s.data.dropLast) := by
  refine ⟨?_, ?_, ?_⟩
  · intro s h
    simp [handle_c_style_floats, h]
  · intro s h
    simp [handle_c_style_floats, h]
  · intro s h
    rcases cfloatFull_decomp s h with ⟨body, hb, hbf⟩
    have hmatch : cfloatMatch s = true := by
      unfold cfloatFullLiteralF at h
      unfold cfloatMatch
      cases hm : cfMantissa (cfSign s.data) with
      | none =>
        rw [hm] at h
        simp at h
      | some r =>
        rw [hm] at h
        have hexp : cfExp r = ['f'] := by simpa using h
        show (match cfExp r with
          | 'f' :: _ => true
          | _ => false) = true
        rw [hexp]
        rfl
    have hfil : s.data.filter (fun c => c ≠ 'f') = body := by
      rw [hb, List.filter_append]
      have h1 : body.filter (fun c => decide (c ≠ 'f')) = body :=
        List.filter_eq_self.mpr (by
          intro a ha
          simpa using hbf a ha)
      have h2 : (['f'] : List Char).filter (fun c => decide (c ≠ 'f')) = [] := rfl
      rw [h1, h2, List.append_nil]
    have hdrop : s.data.dropLast = body := by
      rw [hb]
      simp
    rw [handle_c_style_floats, if_pos hmatch, hfil, hdrop]

/-- Witness for C8 (amended): `"0.001f"` — exactly a float literal plus
trailing `f` — loses its final character (yielding `"0.001"`), and the
non-matching `"banana"` passes through unchanged. -/
theorem c_style_float_cleanup_witness :
    handle_c_style_floats "0.001f" = String.mk "0.001f".data.dropLast ∧
    handle_c_style_floats "banana" = "banana" :=
  ⟨c_style_float_cleanup.2.2 "0.001f" rfl,
   c_style_float_cleanup.1 "banana" rfl⟩

/-- C9: `clear_parsed_data` sets only the retained raw parse data to `None`;
every other field of the node state — including every derived field named by
the claim — is unchanged. -/
theorem clear_parsed_data_only_clears_raw (δ : Type) (nd : NodeDescState δ) :
    (clear_parsed_data nd).parsed_data = none ∧
    (clear_parsed_data nd).name = nd.name ∧
    (clear_parsed_data nd).node_type = nd.node_type ∧
    (clear_parsed_data nd).rman_node_type = nd.rman_node_type ∧
    (clear_parsed_data nd).help = nd.help ∧
    (clear_parsed_data nd).params = nd.params ∧
    (clear_parsed_data nd).outputs = nd.outputs ∧
    (clear_parsed_data nd).attributes = nd.attributes ∧
    (clear_parsed_data nd).param_dict = nd.param_dict ∧
    (clear_parsed_data nd).attribute_dict = nd.attribute_dict ∧
    (clear_parsed_data nd).output_dict = nd.output_dict ∧
    (clear_parsed_data nd).textured_params = nd.textured_params ∧
    (clear_parsed_data nd).pages_condvis_dict = nd.pages_condvis_dict ∧
    (clear_parsed_data nd).pages_trigger_params = nd.pages_trigger_params ∧
    (clear_parsed_data nd).ui_structs = nd.ui_structs ∧
    (clear_parsed_data nd).ui_struct_membership = nd.ui_struct_membership ∧
    (clear_parsed_data nd).parsed_data_type = nd.parsed_data_type :=
  ⟨rfl, rfl, rfl, rfl, rfl, rfl, rfl, rfl, rfl, rfl, rfl, rfl, rfl, rfl,
   rfl, rfl, rfl⟩

/-- C2 (counterexample): a `string`-typed XML parameter with fixed array
size 2 and single default element `"foo"` keeps the raw default string — a
`PyVal.pystr`, not a sequence of 2 elements (its Python `len` is 3) — the
XML `_set_default` never broadcasts string defaults. -/
theorem array_default_string_not_broadcast :
    set_default (fun _ => .error ()) (fun _ => .ok (.pyfloat 5))
      (fun _ => .ok (.pyint 0)) "string" (some 2) (some "foo") =
      .ok (.pystr "foo") ∧
    (∀ l : List PyVal, PyVal.pystr "foo" ≠ .pylist l) ∧
    pyLen (.pystr "foo") = .ok 3 ∧ (3 : Int) ≠ 2 :=
  ⟨rfl, fun l h => PyVal.noConfusion h, rfl, by decide⟩

/-- C2 (amended): the broadcast law holds for every XML parameter of a
non-string, non-struct type with an entry in the component-width table
(string-typed array defaults pass through as the raw string, struct-typed
defaults become `""`, and types missing from the width table raise
`KeyError`), and for every JSON parameter whose default is a one-element
list: with declared fixed size `N > 0` and exactly one supplied element the
resolved default is exactly `N` copies of that element — one converted
token for width ≤ 1 types, one tuple of width-many converted tokens for
wider types. -/
theorem array_default_broadcast :
    (∀ (evalF : String → Except Unit PyVal)
        (floatP intP : String → Except PyErr PyVal)
        (ptype : String) (n : Int) (raw : String) (w : Nat),
      DATA_TYPE_WIDTH ptype = some w →
      strContainsSub "string" ptype = false →
      ptype ≠ "struct" →
      0 < n →
      (pySplit (handle_c_style_floats raw)).length = max w 1 →
      (∀ t ∈ pySplit (handle_c_style_floats raw),
        ∃ v, (if ptype = "int" then intP else floatP) t = .ok v) →
      ∃ e, set_default evalF floatP intP ptype (some n) (some raw) =
          .ok (.pylist (List.replicate n.toNat e)) ∧
        ((1 < w ∧ ∃ vs, convAll (if ptype = "int" then intP else floatP)
            (pySplit (handle_c_style_floats raw)) = .ok vs ∧ e = .tuple vs) ∨
          (w ≤ 1 ∧ convAll (if ptype = "int" then intP else floatP)
            (pySplit (handle_c_style_floats raw)) = .ok [e]))) ∧
    (∀ (n : Int) (e : PyVal), 0 < n →
      postprocess_default (some n) (.pylist [e]) =
        .ok (.pylist (List.replicate n.toNat e))) := by
  constructor
  · intro evalF floatP intP ptype n raw w hw hs hstruct hn hlen hconv
    rcases convAll_ok_of_forall _ _ hconv with ⟨vs, hcv, hvslen⟩
    by_cases hw1 : 1 < w
    · have hvl : (pySplit (handle_c_style_floats raw)).length = w := by
        rw [hlen]
        omega
      have hgt := groupTuples_exact _ w _ vs hw1 hvl hcv
      refine ⟨.tuple vs, ?_, Or.inl ⟨hw1, vs, hcv, rfl⟩⟩
      simp only [set_default, if_neg hstruct, hs, hw, if_pos hw1, hgt,
        if_true, eq_self_iff_true, except_ok_bind]
      have hcond : ([PyVal.tuple vs].length = 1 ∧ 0 < n) := ⟨rfl, hn⟩
      rw [if_pos hcond]
      simp [pyListRepeat, flatten_replicate_singleton]
    · have hvl : (pySplit (handle_c_style_floats raw)).length = 1 := by
        rw [hlen]
        omega
      have hvs1 : vs.length = 1 := by rw [hvslen, hvl]
      rcases List.length_eq_one.mp hvs1 with ⟨e, he⟩
      rw [he] at hcv
      refine ⟨e, ?_, Or.inr ⟨by omega, hcv⟩⟩
      simp only [set_default, if_neg hstruct, hs, hw, if_neg hw1, hcv,
        if_true, eq_self_iff_true, except_ok_bind]
      have hcond : ([e].length = 1 ∧ 0 < n) := ⟨rfl, hn⟩
      rw [if_pos hcond]
      simp [pyListRepeat, flatten_replicate_singleton]
  · intro n e hn
    simp only [postprocess_default, if_pos hn, pyLen, except_ok_bind]
    simp [pySeqRepeat, flatten_replicate_singleton]

/-- Witness for C2 (amended): a `float` array of declared size 2 with the
single default token `"5"` resolves to two copies of the converted token,
and a JSON one-element list default with size 3 is broadcast to 3 copies. -/
theorem array_default_broadcast_witness :
    (∃ e, set_default (fun _ => .error ()) (fun _ => .ok (.pyfloat 5))
        (fun _ => .ok (.pyint 0)) "float" (some 2) (some "5") =
        .ok (.pylist (List.replicate (2 : Int).toNat e)) ∧
      ((1 < 1 ∧ ∃ vs, convAll
          (if "float" = "int" then (fun _ => .ok (.pyint 0))
            else (fun _ => .ok (.pyfloat 5)))
          (pySplit (handle_c_style_floats "5")) = .ok vs ∧ e = .tuple vs) ∨
        (1 ≤ 1 ∧ convAll
          (if "float" = "int" then (fun _ => .ok (.pyint 0))
            else (fun _ => .ok (.pyfloat 5)))
          (pySplit (handle_c_style_floats "5")) = .ok [e]))) ∧
    postprocess_default (some 3) (.pylist [.pyint 4]) =
      .ok (.pylist (List.replicate (3 : Int).toNat (.pyint 4))) :=
  ⟨array_default_broadcast.1 (fun _ => .error ()) (fun _ => .ok (.pyfloat 5))
      (fun _ => .ok (.pyint 0)) "float" 2 "5" 1 rfl rfl (by decide)
      (by decide) rfl (fun t _ => ⟨.pyfloat 5, rfl⟩),
   array_default_broadcast.2 3 (.pyint 4) (by decide)⟩

/-- C3 (counterexample): the cleanup deletes only the *first* matching
parameter and scans only `params` — after `parseNodePost` on a node whose
`params` held two `notes`/`string` parameters and whose `outputs` held one,
both `params` and `outputs` still contain a `notes`/`string` entry. -/
theorem notes_cleanup_counterexample :
    (parseNodePost c3Node).params.any isNotesString = true ∧
    (parseNodePost c3Node).outputs.any isNotesString = true :=
  ⟨rfl, rfl⟩

/-- C3 (amended): the post-parse cleanup removes the first `notes`/`string`
parameter from `params` only — so whenever `params` holds at most one such
parameter, none remains there after construction; `outputs` and
`attributes` are never filtered (they pass through unchanged). -/
theorem notes_cleanup_params_only {δ : Type} (nd : NodeDescState δ) :
    (nd.params.countP isNotesString ≤ 1 →
      ∀ p ∈ (parseNodePost nd).params, isNotesString p = false) ∧
    (parseNodePost nd).outputs = nd.outputs ∧
    (parseNodePost nd).attributes = nd.attributes := by
  refine ⟨?_, ?_, ?_⟩
  · intro h p hp
    rw [parseNodePost_params] at hp
    rcases List.mem_map.mp hp with ⟨q, hq, hqp⟩
    rw [← hqp, isNotesString_markTrigger]
    exact removeFirstNotes_no_match nd.params h q hq
  · show (markPass (collectPass _)).outputs = _
    unfold markPass collectPass
    rw [collectFold_outputs]
  · show (markPass (collectPass _)).attributes = _
    unfold markPass collectPass
    rw [collectFold_attributes]

/-- Witness for C3 (amended): on a node with a single `notes`/`string`
parameter next to an ordinary one, no `notes`/`string` parameter survives in
`params`, and `outputs` is untouched. -/
theorem notes_cleanup_params_only_witness :
    (∀ p ∈ (parseNodePost c3WitnessNode).params, isNotesString p = false) ∧
    (parseNodePost c3WitnessNode).outputs = c3WitnessNode.outputs :=
  ⟨(notes_cleanup_params_only c3WitnessNode).1 (by decide),
   (notes_cleanup_params_only c3WitnessNode).2.1⟩

/-- C10: after the post-parse passes, `pages_trigger_params` contains every
page-level trigger name it held before (the visibility builder's output for
page elements) *and* every name in every input parameter's `trigger_params`
list: the collection pass extends the very list object aliased by
`trigger_params_list`. -/
theorem pages_trigger_params_absorbs_param_triggers {δ : Type}
    (nd : NodeDescState δ) :
    (∀ t ∈ nd.pages_trigger_params,
      t ∈ (parseNodePost nd).pages_trigger_params) ∧
    (∀ p ∈ (parseNodePost nd).params, ∀ t ∈ p.trigger_params,
      t ∈ (parseNodePost nd).pages_trigger_params) := by
  constructor
  · intro t ht
    rw [parseNodePost_triggers]
    exact List.mem_append_left _ ht
  · intro p hp t ht
    rw [parseNodePost_params] at hp
    rcases List.mem_map.mp hp with ⟨q, hq, hqp⟩
    rw [← hqp, markTrigger_trigger_params] at ht
    rw [parseNodePost_triggers]
    refine List.mem_append_right _ ?_
    exact List.mem_flatten.mpr
      ⟨q.trigger_params, List.mem_map_of_mem ParamState.trigger_params hq, ht⟩

/-- Witness for C10: on a node with page trigger `"pg"` and one parameter
whose `trigger_params` is `["x"]`, both names end up in
`pages_trigger_params`. -/
theorem pages_trigger_params_absorbs_witness :
    "pg" ∈ (parseNodePost c10Node).pages_trigger_params ∧
    "x" ∈ (parseNodePost c10Node).pages_trigger_params :=
  ⟨(pages_trigger_params_absorbs_param_triggers c10Node).1 "pg"
      (List.mem_singleton_self "pg"),
   (pages_trigger_params_absorbs_param_triggers c10Node).2
      ({ mkParam "a" "float" with trigger_params := ["x"] })
      (List.mem_singleton_self _) "x" (List.mem_singleton_self "x")⟩

end NodeDescSpec

